import Mathlib

/-!
Verification of the coinai-analytics market-data retrieval and
normalization layer.

The TypeScript source is shallowly embedded: decimal values carried as
JavaScript numbers are modelled by `Rat`, millisecond timestamps and
integer query values by `Int`, fallible operations by `Option`/`Except`,
and the network is modelled by passing each handler the outcome of its
upstream request(s) as an explicit argument.
-/

namespace CoinAI

/-- One parsed OHLCV candle (`CandleData` in `src/services/bitgetApi.ts`):
millisecond timestamp plus open/high/low/close/volume/quoteVolume.
The field `open` is a Lean keyword, hence `open_`. -/
structure Candle where
  timestamp : Int
  open_ : Rat
  high : Rat
  low : Rat
  close : Rat
  volume : Rat
  quoteVolume : Rat
  deriving Repr, DecidableEq

/-- One raw upstream candle row.  Upstream delivers a string tuple
`[ts, open, high, low, close, volume, quoteVolume]`; the source applies
`parseInt` to position 0 and `parseFloat` to positions 1-6.  The fields
below are those parsed numeric values, kept in tuple order. -/
structure RawRow where
  ts : Int
  o : Rat
  h : Rat
  l : Rat
  c : Rat
  v : Rat
  qv : Rat
  deriving Repr, DecidableEq

/-- The positional row-to-candle mapping performed inside
`getHistoricalData` (`bitgetApi.ts` lines 126-134): `timestamp` from
position 0, then open/high/low/close/volume/quoteVolume in order. -/
def parseCandle (r : RawRow) : Candle :=
  { timestamp := r.ts
    open_ := r.o
    high := r.h
    low := r.l
    close := r.c
    volume := r.v
    quoteVolume := r.qv }

/-- Comparator used by `candles.sort((a, b) => a.timestamp - b.timestamp)`:
ascending order on the candle timestamp. -/
def candleLE (a b : Candle) : Prop := a.timestamp ≤ b.timestamp

instance : DecidableRel candleLE := fun a b => Int.decLe a.timestamp b.timestamp

instance : IsTotal Candle candleLE := ⟨fun a b => Int.le_total a.timestamp b.timestamp⟩

instance : IsTrans Candle candleLE := ⟨fun _ _ _ hab hbc => le_trans hab hbc⟩

/-- `getHistoricalData` (`src/services/bitgetApi.ts` lines 123-135) after
the response arrived: map every raw row through the positional parser and
sort ascending by timestamp.  JavaScript `Array.prototype.sort` with the
`a.timestamp - b.timestamp` comparator is a stable sort by `candleLE`,
modelled by insertion sort. -/
def getHistoricalData (rows : List RawRow) : List Candle :=
  List.insertionSort candleLE (rows.map parseCandle)

/-- `getFuturesHistoricalData` (`src/unnamed/part_001` lines 425-437):
textually the same parse-and-sort pipeline as `getHistoricalData`,
pointed at the futures candles proxy. -/
def getFuturesHistoricalData (rows : List RawRow) : List Candle :=
  List.insertionSort candleLE (rows.map parseCandle)

namespace CandlesRoute

/-- Spot granularity mapper of `src/app/api/bitget/candles/route.ts`
lines 4-16: a lookup table that is the identity on every known token
except `1month -> 1M`; an unknown token falls through
(`granularityMap[granularity] || granularity`) and is returned unchanged. -/
def mapGranularity (granularity : String) : String :=
  if granularity = "1min" then "1min"
  else if granularity = "5min" then "5min"
  else if granularity = "15min" then "15min"
  else if granularity = "1h" then "1h"
  else if granularity = "4h" then "4h"
  else if granularity = "1day" then "1day"
  else if granularity = "1week" then "1week"
  else if granularity = "1month" then "1M"
  else granularity

end CandlesRoute

namespace BitgetApi

/-- Spot granularity mapper of the client service
(`src/services/bitgetApi.ts` lines 59-71); same table as the spot
candles route: identity except `1month -> 1M`, unknown tokens pass
through unchanged. -/
def mapGranularity (granularity : String) : String :=
  if granularity = "1min" then "1min"
  else if granularity = "5min" then "5min"
  else if granularity = "15min" then "15min"
  else if granularity = "1h" then "1h"
  else if granularity = "4h" then "4h"
  else if granularity = "1day" then "1day"
  else if granularity = "1week" then "1week"
  else if granularity = "1month" then "1M"
  else granularity

end BitgetApi

namespace FuturesCandlesRoute

/-- Futures granularity mapper (futures candles route, lines 151-164 of
the concatenated futures route source): maps the UI tokens onto the
futures token convention `1m/5m/15m/1H/4H/1D/1W/1M`, and an unknown
token defaults to the daily token `1D`
(`granularityMap[granularity] || '1D'`). -/
def mapGranularity (granularity : String) : String :=
  if granularity = "1min" then "1m"
  else if granularity = "5min" then "5m"
  else if granularity = "15min" then "15m"
  else if granularity = "1h" then "1H"
  else if granularity = "4h" then "4H"
  else if granularity = "1day" then "1D"
  else if granularity = "1week" then "1W"
  else if granularity = "1month" then "1M"
  else "1D"

end FuturesCandlesRoute

/-- The fixed set of UI granularity tokens that every mapper's lookup
table enumerates. -/
def knownGranularities : List String :=
  ["1min", "5min", "15min", "1h", "4h", "1day", "1week", "1month"]

/-- Outcome of the validation phase of a proxy route handler: either an
early JSON error response (no upstream request is made), or the query
that is forwarded upstream. -/
inductive Action (α : Type) where
  | respondError (status : Nat) (error : String)
  | fetchUpstream (query : α)
  deriving Repr, DecidableEq

/-- The forwarded query, when the handler reached the upstream call. -/
def Action.query? : Action α → Option α
  | .respondError _ _ => none
  | .fetchUpstream q => some q

/-- Millisecond-to-second conversion applied to `startTime`/`endTime`
before forwarding (candles routes): `n > 9999999999 ? Math.floor(n / 1000) : n`.
`Math.floor` of a real division is floor division, `Int.fdiv`. -/
def convertTimestamp (n : Int) : Int :=
  if n > 9999999999 then Int.fdiv n 1000 else n

namespace CandlesRoute

/-- Query string forwarded to the upstream spot candles endpoint. -/
structure Query where
  symbol : String
  granularity : String
  limit : Int
  startTime : Option Int
  endTime : Option Int
  deriving Repr, DecidableEq

/-- Validation/forwarding phase of the spot candles `GET` handler
(`src/app/api/bitget/candles/route.ts` lines 18-55).  Inputs are the
parsed query parameters (`none` when absent; defaults `'1D'` for
granularity and `'200'` for limit mirror the `|| '1D'` / `|| '200'`
fallbacks, and numeric strings are carried as their parsed integers).
A missing symbol yields the 400 response before any upstream request;
otherwise the limit is clamped to 1000 and each supplied timestamp is
converted by `convertTimestamp`. -/
def getHandler (symbol : Option String) (granularity : Option String)
    (startTime endTime : Option Int) (limit : Option Int) : Action Query :=
  match symbol with
  | none => .respondError 400 "Symbol parameter is required"
  | some s =>
      .fetchUpstream
        { symbol := s
          granularity := mapGranularity (granularity.getD "1D")
          limit := min (limit.getD 200) 1000
          startTime := startTime.map convertTimestamp
          endTime := endTime.map convertTimestamp }

end CandlesRoute

namespace FuturesCandlesRoute

/-- Query string forwarded to the upstream futures candles endpoint
(also carries the fixed `productType=usdt-futures`). -/
structure Query where
  symbol : String
  granularity : String
  productType : String
  limit : Int
  startTime : Option Int
  endTime : Option Int
  deriving Repr, DecidableEq

/-- Validation/forwarding phase of the futures candles `GET` handler
(lines 166-204 of the concatenated futures route source): same shape as
the spot candles handler, with the futures granularity mapper, the fixed
`productType`, limit clamped to 1000, and the same timestamp
heuristic applied to `startTime` and `endTime`. -/
def getHandler (symbol : Option String) (granularity : Option String)
    (startTime endTime : Option Int) (limit : Option Int) : Action Query :=
  match symbol with
  | none => .respondError 400 "Symbol parameter is required"
  | some s =>
      .fetchUpstream
        { symbol := s
          granularity := mapGranularity (granularity.getD "1D")
          productType := "usdt-futures"
          limit := min (limit.getD 200) 1000
          startTime := startTime.map convertTimestamp
          endTime := endTime.map convertTimestamp }

end FuturesCandlesRoute

namespace OrderbookRoute

/-- Query string forwarded to the upstream spot order-book endpoint. -/
structure Query where
  symbol : String
  limit : Int
  deriving Repr, DecidableEq

/-- Validation/forwarding phase of the spot order-book `GET` handler
(`src/app/api/bitget/orderbook/route.ts` lines 3-20): missing symbol
yields the 400 response; otherwise the limit (default `'100'`) is
clamped to the upstream maximum 500. -/
def getHandler (symbol : Option String) (limit : Option Int) : Action Query :=
  match symbol with
  | none => .respondError 400 "Symbol parameter is required"
  | some s => .fetchUpstream { symbol := s, limit := min (limit.getD 100) 500 }

end OrderbookRoute

namespace FuturesOrderbookRoute

/-- Query string forwarded to the upstream futures order-book endpoint. -/
structure Query where
  symbol : String
  productType : String
  limit : Int
  deriving Repr, DecidableEq

/-- Validation/forwarding phase of the futures order-book `GET` handler
(lines 266-284 of the concatenated futures route source): missing symbol
yields the 400 response; otherwise the limit (default `'20'`) is clamped
to the upstream maximum 100. -/
def getHandler (symbol : Option String) (limit : Option Int) : Action Query :=
  match symbol with
  | none => .respondError 400 "Symbol parameter is required"
  | some s =>
      .fetchUpstream
        { symbol := s
          productType := "usdt-futures"
          limit := min (limit.getD 20) 100 }

end FuturesOrderbookRoute

namespace FuturesTickerRoute

/-- Validation phase of the futures single-ticker `GET` handler
(`src/app/api/bitget/futures/ticker/route.ts` lines 3-18): missing
symbol yields the 400 response, otherwise only the symbol itself is
forwarded. -/
def getHandler (symbol : Option String) : Action String :=
  match symbol with
  | none => .respondError 400 "Symbol parameter is required"
  | some s => .fetchUpstream s

end FuturesTickerRoute

namespace TickerRoute

/-- One entry of the upstream spot tickers payload, reduced to the field
the handler inspects (`t.symbol`) plus the rest of the record abstracted
as an opaque payload value. -/
structure Entry (α : Type) where
  symbol : String
  payload : α
  deriving Repr, DecidableEq

/-- Response of the spot single-ticker handler: an error JSON with an
HTTP status, or a 200 response whose `data` is the singleton list
containing the matching entry. -/
inductive Response (α : Type) where
  | err (status : Nat) (error : String)
  | ok (data : List (Entry α))
  deriving Repr, DecidableEq

/-- The spot single-ticker `GET` handler
(`src/app/api/bitget/ticker/route.ts` lines 3-59).  `upstream = none`
models a failed upstream tickers request (network error or non-2xx),
which the `catch` turns into the 500 response; on success the handler
looks for the entry whose symbol equals the requested one, answers 404
naming the symbol when there is none, and otherwise re-wraps the found
entry as a one-element `data` list. -/
def getHandler (symbol : Option String) (upstream : Option (List (Entry α))) :
    Response α :=
  match symbol with
  | none => .err 400 "Symbol parameter is required"
  | some s =>
      match upstream with
      | none => .err 500 "Failed to fetch ticker"
      | some entries =>
          match entries.find? (fun t => t.symbol = s) with
          | none => .err 404 ("Symbol " ++ s ++ " not found")
          | some t => .ok [t]

end TickerRoute

namespace SymbolsRoute

/-- One row of the hard-coded mock spot symbol list. -/
structure MockSymbol where
  symbol : String
  baseCoin : String
  quoteCoin : String
  status : String
  deriving Repr, DecidableEq

/-- Body of the spot symbols proxy response: the raw payload of the v2
endpoint, the v1 payload wrapped into `{code, msg, data}`, or the mock
body assembled when every upstream candidate failed. -/
inductive Body (α : Type) where
  | raw (payload : α)
  | wrapped (code msg : String) (payload : α)
  | mock (code msg : String) (rows : List MockSymbol)
  deriving Repr, DecidableEq

/-- A spot symbols proxy response: status, body and response headers. -/
structure Response (α : Type) where
  status : Nat
  body : Body α
  headers : List (String × String)
  deriving Repr, DecidableEq

/-- The CORS headers attached to every symbols response. -/
def corsHeaders : List (String × String) :=
  [("Access-Control-Allow-Origin", "*"),
   ("Access-Control-Allow-Methods", "GET, POST, PUT, DELETE, OPTIONS"),
   ("Access-Control-Allow-Headers", "Content-Type, Authorization")]

/-- The hard-coded 10-row mock symbol list of
`src/app/api/bitget/symbols/route.ts` lines 78-143. -/
def mockSymbols : List MockSymbol :=
  [{ symbol := "BTCUSDT", baseCoin := "BTC", quoteCoin := "USDT", status := "online" },
   { symbol := "ETHUSDT", baseCoin := "ETH", quoteCoin := "USDT", status := "online" },
   { symbol := "ADAUSDT", baseCoin := "ADA", quoteCoin := "USDT", status := "online" },
   { symbol := "DOTUSDT", baseCoin := "DOT", quoteCoin := "USDT", status := "online" },
   { symbol := "LINKUSDT", baseCoin := "LINK", quoteCoin := "USDT", status := "online" },
   { symbol := "SOLUSDT", baseCoin := "SOL", quoteCoin := "USDT", status := "online" },
   { symbol := "MATICUSDT", baseCoin := "MATIC", quoteCoin := "USDT", status := "online" },
   { symbol := "AVAXUSDT", baseCoin := "AVAX", quoteCoin := "USDT", status := "online" },
   { symbol := "ATOMUSDT", baseCoin := "ATOM", quoteCoin := "USDT", status := "online" },
   { symbol := "NEARUSDT", baseCoin := "NEAR", quoteCoin := "USDT", status := "online" }]

/-- The spot symbols `GET` handler
(`src/app/api/bitget/symbols/route.ts` lines 29-163).  The two
candidate endpoints (v2 `public/symbols`, then v1 `public/products`) are
tried in order; `resultV2`/`resultV1` are their outcomes after
`fetchWithRetry` (`none` = failed).  The first success is returned as
is — the v1 payload normalized into a `{code, msg, data}` wrapper —
without any `X-Data-Source` header; when both fail, the handler answers
with the mock body and the `X-Data-Source: mock` header. -/
def getHandler (resultV2 resultV1 : Option α) : Response α :=
  match resultV2 with
  | some d =>
      { status := 200
        body := .raw d
        headers := corsHeaders ++ [("Cache-Control", "public, max-age=300")] }
  | none =>
      match resultV1 with
      | some d =>
          { status := 200
            body := .wrapped "00000" "success" d
            headers := corsHeaders ++ [("Cache-Control", "public, max-age=300")] }
      | none =>
          { status := 200
            body := .mock "00000" "success (mock data)" mockSymbols
            headers := corsHeaders ++ [("X-Data-Source", "mock")] }

end SymbolsRoute

/-- The AI summary record returned by `getDataForAI`.  The source
renders `startDate`/`endDate` as ISO calendar days from the first and
last candle timestamps; that rendering is a fixed pure function of the
timestamp, so the record keeps the underlying millisecond timestamps
(`startDateTs`/`endDateTs`). -/
structure Summary where
  totalDays : Nat
  startDateTs : Int
  endDateTs : Int
  startPrice : Rat
  endPrice : Rat
  highestPrice : Rat
  lowestPrice : Rat
  totalVolume : Rat
  priceChange : Rat
  priceChangePercent : Rat
  deriving Repr, DecidableEq

/-- The record returned by a successful `getDataForAI` call. -/
structure AIResult where
  symbol : String
  data : List Candle
  summary : Summary
  deriving Repr, DecidableEq

/-- The point-density limit table shared by both revisions of
`getDataForAI` (`src/services/bitgetApi.ts` lines 204-234): an estimate
of the number of candles in `days` days at the given granularity,
clamped to the upstream maximum 1000; `Math.ceil(days / 7)` and
`Math.ceil(days / 30)` are natural-number ceiling divisions. -/
def computeLimit (days : Nat) (granularity : String) : Nat :=
  if granularity = "1min" then min (days * 24 * 60) 1000
  else if granularity = "5min" then min (days * 24 * 12) 1000
  else if granularity = "15min" then min (days * 24 * 4) 1000
  else if granularity = "1h" then min (days * 24) 1000
  else if granularity = "4h" then min (days * 6) 1000
  else if granularity = "1day" then min days 1000
  else if granularity = "1week" then min ((days + 6) / 7) 1000
  else if granularity = "1month" then min ((days + 29) / 30) 1000
  else min days 1000

namespace BitgetApi

/-- Summary construction of `getDataForAI` in `src/services/bitgetApi.ts`
(lines 262-288), on a non-empty series `c :: cs`:
`startPrice = data[0].open`, `endPrice = data[data.length-1].close`,
`highestPrice = Math.max(...data.map(d => d.high))`,
`lowestPrice = Math.min(...data.map(d => d.low))`,
`totalVolume = data.reduce((sum, d) => sum + d.volume, 0)`,
`priceChange = endPrice - startPrice`,
`priceChangePercent = (priceChange / startPrice) * 100`, and — in this
revision — `totalDays = data.length`. -/
def mkSummary (c : Candle) (cs : List Candle) : Summary :=
  let data := c :: cs
  let last := data.getLast (List.cons_ne_nil c cs)
  let startPrice := c.open_
  let endPrice := last.close
  let highestPrice := cs.foldl (fun m d => max m d.high) c.high
  let lowestPrice := cs.foldl (fun m d => min m d.low) c.low
  let totalVolume := data.foldl (fun sum d => sum + d.volume) 0
  let priceChange := endPrice - startPrice
  let priceChangePercent := priceChange / startPrice * 100
  { totalDays := data.length
    startDateTs := c.timestamp
    endDateTs := last.timestamp
    startPrice := startPrice
    endPrice := endPrice
    highestPrice := highestPrice
    lowestPrice := lowestPrice
    totalVolume := totalVolume
    priceChange := priceChange
    priceChangePercent := priceChangePercent }

/-- Data-acquisition flow of `getDataForAI`
(`src/services/bitgetApi.ts` lines 236-288).  `bounded` is the candle
series the window-bounded `getHistoricalData` request (window of `days`
days back from now, limit `computeLimit days granularity`) returns, and
`unbounded` the series the fallback request with no explicit time bounds
(limit `min (computeLimit days granularity) 200`) would return; the
second component of the result counts the `getHistoricalData` requests
actually issued.  An empty bounded result triggers exactly one fallback
request; if that is also empty the call fails with the
symbol-naming error. -/
def getDataForAI (symbol : String) (days : Nat) (granularity : String)
    (bounded unbounded : List Candle) : Except String AIResult × Nat :=
  match bounded with
  | c :: cs =>
      (.ok { symbol := symbol, data := c :: cs, summary := mkSummary c cs }, 1)
  | [] =>
      match unbounded with
      | c :: cs =>
          (.ok { symbol := symbol, data := c :: cs, summary := mkSummary c cs }, 2)
      | [] => (.error ("No data available for " ++ symbol), 2)

end BitgetApi

/-- The market selector of the unified client service revision
(`src/unnamed/part_001` line 83). -/
inductive MarketType where
  | spot
  | futures
  deriving Repr, DecidableEq

namespace BitgetApiV2

/-- Summary construction of `getDataForAI` in the `src/unnamed/part_001`
revision (lines 298-324): identical expressions to
`BitgetApi.mkSummary` for every field except `totalDays`, which this
revision populates with the requested window length `days` instead of
the point count. -/
def mkSummary (days : Nat) (c : Candle) (cs : List Candle) : Summary :=
  let data := c :: cs
  let last := data.getLast (List.cons_ne_nil c cs)
  let startPrice := c.open_
  let endPrice := last.close
  let highestPrice := cs.foldl (fun m d => max m d.high) c.high
  let lowestPrice := cs.foldl (fun m d => min m d.low) c.low
  let totalVolume := data.foldl (fun sum d => sum + d.volume) 0
  let priceChange := endPrice - startPrice
  let priceChangePercent := priceChange / startPrice * 100
  { totalDays := days
    startDateTs := c.timestamp
    endDateTs := last.timestamp
    startPrice := startPrice
    endPrice := endPrice
    highestPrice := highestPrice
    lowestPrice := lowestPrice
    totalVolume := totalVolume
    priceChange := priceChange
    priceChangePercent := priceChangePercent }

/-- Data-acquisition flow of `getDataForAI` in `src/unnamed/part_001`
(lines 272-324): same bounded-then-unbounded fallback as
`BitgetApi.getDataForAI`, but the summary carries `totalDays = days`. -/
def getDataForAI (symbol : String) (days : Nat) (granularity : String)
    (bounded unbounded : List Candle) : Except String AIResult × Nat :=
  match bounded with
  | c :: cs =>
      (.ok { symbol := symbol, data := c :: cs, summary := mkSummary days c cs }, 1)
  | [] =>
      match unbounded with
      | c :: cs =>
          (.ok { symbol := symbol, data := c :: cs, summary := mkSummary days c cs }, 2)
      | [] => (.error ("No data available for " ++ symbol), 2)

/-- `getDataForAIByMarket` (`src/unnamed/part_001` lines 538-654): the
same flow as this revision's `getDataForAI`, with the two
`getHistoricalData` requests dispatched through
`getHistoricalDataByMarket` on the selected market; `bounded` and
`unbounded` are the outcomes of those dispatched requests. -/
def getDataForAIByMarket (_marketType : MarketType) (symbol : String)
    (days : Nat) (granularity : String)
    (bounded unbounded : List Candle) : Except String AIResult × Nat :=
  match bounded with
  | c :: cs =>
      (.ok { symbol := symbol, data := c :: cs, summary := mkSummary days c cs }, 1)
  | [] =>
      match unbounded with
      | c :: cs =>
          (.ok { symbol := symbol, data := c :: cs, summary := mkSummary days c cs }, 2)
      | [] => (.error ("No data available for " ++ symbol), 2)

end BitgetApiV2

/-- A concrete candle used to instantiate theorems at sample inputs. -/
def sampleCandle : Candle :=
  { timestamp := 1700000000000
    open_ := 10
    high := 12
    low := 9
    close := 11
    volume := 5
    quoteVolume := 50 }

end CoinAI

namespace CoinAI

/-- The accumulator of a running-maximum fold never decreases. -/
lemma init_le_foldl_max {β : Type} [LinearOrder β] (f : Candle → β) :
    ∀ (cs : List Candle) (a : β), a ≤ cs.foldl (fun m d => max m (f d)) a
  | [], _ => le_refl _
  | d :: cs, a =>
      le_trans (le_max_left a (f d)) (init_le_foldl_max f cs (max a (f d)))

/-- Every list element is bounded by the running-maximum fold. -/
lemma le_foldl_max_of_mem {β : Type} [LinearOrder β] (f : Candle → β)
    (cs : List Candle) (a : β) (d : Candle) (hd : d ∈ cs) :
    f d ≤ cs.foldl (fun m x => max m (f x)) a := by
  induction cs generalizing a with
  | nil => cases hd
  | cons e cs ih =>
      rcases List.mem_cons.mp hd with rfl | h
      · exact le_trans (le_max_right a (f d)) (init_le_foldl_max f cs _)
      · exact ih _ h

/-- The accumulator of a running-minimum fold never increases. -/
lemma foldl_min_le_init {β : Type} [LinearOrder β] (f : Candle → β) :
    ∀ (cs : List Candle) (a : β), cs.foldl (fun m d => min m (f d)) a ≤ a
  | [], _ => le_refl _
  | d :: cs, a =>
      le_trans (foldl_min_le_init f cs (min a (f d))) (min_le_left a (f d))

/-- The running-minimum fold is bounded by every list element. -/
lemma foldl_min_le_of_mem {β : Type} [LinearOrder β] (f : Candle → β)
    (cs : List Candle) (a : β) (d : Candle) (hd : d ∈ cs) :
    cs.foldl (fun m x => min m (f x)) a ≤ f d := by
  induction cs generalizing a with
  | nil => cases hd
  | cons e cs ih =>
      rcases List.mem_cons.mp hd with rfl | h
      · exact le_trans (foldl_min_le_init f cs _) (min_le_right a (f d))
      · exact ih _ h

/-- A left fold that adds `f` of every element equals the starting
accumulator plus the sum of the mapped list. -/
lemma foldl_add_map (f : Candle → Rat) :
    ∀ (l : List Candle) (a : Rat),
      l.foldl (fun s d => s + f d) a = a + (l.map f).sum := by
  intro l
  induction l with
  | nil => intro a; simp
  | cons d l ih =>
      intro a
      simp only [List.foldl_cons, List.map_cons, List.sum_cons]
      rw [ih, add_assoc]

/-- Claim C2: on the fixed token set
`{1min, 5min, 15min, 1h, 4h, 1day, 1week, 1month}` both spot granularity
mappers (candles route and client service) are the identity except
`1month -> 1M`, and the futures mapper yields
`1m, 5m, 15m, 1H, 4H, 1D, 1W, 1M` respectively; any token outside the
set passes through the spot mappers unchanged while the futures mapper
yields `1D`. -/
theorem claim2_granularity_mappers :
    (∀ g ∈ knownGranularities,
       CandlesRoute.mapGranularity g = BitgetApi.mapGranularity g)
  ∧ CandlesRoute.mapGranularity "1month" = "1M"
  ∧ (∀ g ∈ knownGranularities, g ≠ "1month" → CandlesRoute.mapGranularity g = g)
  ∧ FuturesCandlesRoute.mapGranularity "1min" = "1m"
  ∧ FuturesCandlesRoute.mapGranularity "5min" = "5m"
  ∧ FuturesCandlesRoute.mapGranularity "15min" = "15m"
  ∧ FuturesCandlesRoute.mapGranularity "1h" = "1H"
  ∧ FuturesCandlesRoute.mapGranularity "4h" = "4H"
  ∧ FuturesCandlesRoute.mapGranularity "1day" = "1D"
  ∧ FuturesCandlesRoute.mapGranularity "1week" = "1W"
  ∧ FuturesCandlesRoute.mapGranularity "1month" = "1M"
  ∧ (∀ g, g ∉ knownGranularities →
       CandlesRoute.mapGranularity g = g
     ∧ BitgetApi.mapGranularity g = g
     ∧ FuturesCandlesRoute.mapGranularity g = "1D") := by
  refine ⟨by decide, by decide, by decide, by decide, by decide, by decide,
    by decide, by decide, by decide, by decide, by decide, ?_⟩
  intro g hg
  simp only [knownGranularities, List.mem_cons, List.not_mem_nil, or_false,
    not_or] at hg
  obtain ⟨h1, h2, h3, h4, h5, h6, h7, h8⟩ := hg
  refine ⟨?_, ?_, ?_⟩ <;>
    simp [CandlesRoute.mapGranularity, BitgetApi.mapGranularity,
      FuturesCandlesRoute.mapGranularity, h1, h2, h3, h4, h5, h6, h7, h8]

/-- Witness for C2 at the in-set token `1day` and the out-of-set token
`7day`. -/
theorem claim2_witness :
    (CandlesRoute.mapGranularity "1day" = "1day")
  ∧ (CandlesRoute.mapGranularity "7day" = "7day"
     ∧ BitgetApi.mapGranularity "7day" = "7day"
     ∧ FuturesCandlesRoute.mapGranularity "7day" = "1D") :=
  ⟨claim2_granularity_mappers.2.2.1 "1day" (by decide) (by decide),
   claim2_granularity_mappers.2.2.2.2.2.2.2.2.2.2.2 "7day" (by decide)⟩

/-- Claim C3: for any `startTime` or `endTime` value `t` supplied to the
spot or futures candles proxy, the value forwarded upstream is
`t` floor-divided by 1000 when `t > 9999999999`, and `t` itself
otherwise — independently for the two fields and the two market
types. -/
theorem claim3_timestamp_heuristic (t : Int) (s : String) (g : Option String)
    (u l : Option Int) :
    (9999999999 < t →
        (CandlesRoute.getHandler (some s) g (some t) u l).query?.map
            CandlesRoute.Query.startTime = some (some (Int.fdiv t 1000))
      ∧ (CandlesRoute.getHandler (some s) g u (some t) l).query?.map
            CandlesRoute.Query.endTime = some (some (Int.fdiv t 1000))
      ∧ (FuturesCandlesRoute.getHandler (some s) g (some t) u l).query?.map
            FuturesCandlesRoute.Query.startTime = some (some (Int.fdiv t 1000))
      ∧ (FuturesCandlesRoute.getHandler (some s) g u (some t) l).query?.map
            FuturesCandlesRoute.Query.endTime = some (some (Int.fdiv t 1000)))
  ∧ (t ≤ 9999999999 →
        (CandlesRoute.getHandler (some s) g (some t) u l).query?.map
            CandlesRoute.Query.startTime = some (some t)
      ∧ (CandlesRoute.getHandler (some s) g u (some t) l).query?.map
            CandlesRoute.Query.endTime = some (some t)
      ∧ (FuturesCandlesRoute.getHandler (some s) g (some t) u l).query?.map
            FuturesCandlesRoute.Query.startTime = some (some t)
      ∧ (FuturesCandlesRoute.getHandler (some s) g u (some t) l).query?.map
            FuturesCandlesRoute.Query.endTime = some (some t)) := by
  constructor
  · intro ht
    refine ⟨?_, ?_, ?_, ?_⟩ <;>
      simp [CandlesRoute.getHandler, FuturesCandlesRoute.getHandler,
        Action.query?, convertTimestamp, ht]
  · intro ht
    refine ⟨?_, ?_, ?_, ?_⟩ <;>
      simp [CandlesRoute.getHandler, FuturesCandlesRoute.getHandler,
        Action.query?, convertTimestamp, not_lt.mpr ht]

/-- Witness for C3 at a millisecond value (`1700000000000`, above the
threshold) and a second value (`1700000000`, below it). -/
theorem claim3_witness :
    ((9999999999 : Int) < 1700000000000
      ∧ (CandlesRoute.getHandler (some "BTCUSDT") none (some 1700000000000)
          none none).query?.map CandlesRoute.Query.startTime
            = some (some (Int.fdiv 1700000000000 1000)))
  ∧ ((1700000000 : Int) ≤ 9999999999
      ∧ (FuturesCandlesRoute.getHandler (some "BTCUSDT") none none
          (some 1700000000) none).query?.map FuturesCandlesRoute.Query.endTime
            = some (some 1700000000)) :=
  ⟨⟨by decide,
    ((claim3_timestamp_heuristic 1700000000000 "BTCUSDT" none none none).1
      (by decide)).1⟩,
   ⟨by decide,
    (((claim3_timestamp_heuristic 1700000000 "BTCUSDT" none none none).2
      (by decide)).2.2.2)⟩⟩

/-- Claim C5: on every proxy handler that requires a `symbol` parameter
(spot and futures candles, spot and futures single ticker, spot and
futures order book), an absent symbol produces the 400 response with
error `Symbol parameter is required`, and no upstream request is made
(the result is never a `fetchUpstream`, and the ticker response does not
depend on any upstream outcome). -/
theorem claim5_missing_symbol (g : Option String) (st et l : Option Int)
    (α : Type) (u : Option (List (TickerRoute.Entry α))) :
    CandlesRoute.getHandler none g st et l
      = .respondError 400 "Symbol parameter is required"
  ∧ FuturesCandlesRoute.getHandler none g st et l
      = .respondError 400 "Symbol parameter is required"
  ∧ OrderbookRoute.getHandler none l
      = .respondError 400 "Symbol parameter is required"
  ∧ FuturesOrderbookRoute.getHandler none l
      = .respondError 400 "Symbol parameter is required"
  ∧ FuturesTickerRoute.getHandler none
      = .respondError 400 "Symbol parameter is required"
  ∧ TickerRoute.getHandler none u = .err 400 "Symbol parameter is required"
  ∧ (∀ q, CandlesRoute.getHandler none g st et l ≠ .fetchUpstream q)
  ∧ (∀ q, FuturesCandlesRoute.getHandler none g st et l ≠ .fetchUpstream q)
  ∧ (∀ q, OrderbookRoute.getHandler none l ≠ .fetchUpstream q)
  ∧ (∀ q, FuturesOrderbookRoute.getHandler none l ≠ .fetchUpstream q)
  ∧ (∀ q, FuturesTickerRoute.getHandler none ≠ .fetchUpstream q) := by
  refine ⟨rfl, rfl, rfl, rfl, rfl, rfl, ?_, ?_, ?_, ?_, ?_⟩ <;>
    intro q <;>
    simp [CandlesRoute.getHandler, FuturesCandlesRoute.getHandler,
      OrderbookRoute.getHandler, FuturesOrderbookRoute.getHandler,
      FuturesTickerRoute.getHandler]

/-- Claim C6: the limit forwarded upstream is `min(limit, 1000)` for
spot and futures candles, `min(limit, 500)` for the spot order book and
`min(limit, 100)` for the futures order book; in particular a
`limit=5000` order-book request is clamped to 500 (spot) and
100 (futures). -/
theorem claim6_limit_clamp (s : String) (g : Option String)
    (st et : Option Int) (l : Int) :
    (CandlesRoute.getHandler (some s) g st et (some l)).query?.map
        CandlesRoute.Query.limit = some (min l 1000)
  ∧ (FuturesCandlesRoute.getHandler (some s) g st et (some l)).query?.map
        FuturesCandlesRoute.Query.limit = some (min l 1000)
  ∧ (OrderbookRoute.getHandler (some s) (some l)).query?.map
        OrderbookRoute.Query.limit = some (min l 500)
  ∧ (FuturesOrderbookRoute.getHandler (some s) (some l)).query?.map
        FuturesOrderbookRoute.Query.limit = some (min l 100)
  ∧ (OrderbookRoute.getHandler (some s) (some 5000)).query?.map
        OrderbookRoute.Query.limit = some 500
  ∧ (FuturesOrderbookRoute.getHandler (some s) (some 5000)).query?.map
        FuturesOrderbookRoute.Query.limit = some 100 := by
  refine ⟨?_, ?_, ?_, ?_, ?_, ?_⟩ <;>
    simp [CandlesRoute.getHandler, FuturesCandlesRoute.getHandler,
      OrderbookRoute.getHandler, FuturesOrderbookRoute.getHandler,
      Action.query?]

/-- Witness for C5: the spot candles handler with no parameters at all
returns the 400 response. -/
theorem claim5_witness :
    CandlesRoute.getHandler none none none none none
      = .respondError 400 "Symbol parameter is required" :=
  (claim5_missing_symbol none none none none Unit none).1

/-- The summary built by the `bitgetApi.ts` revision satisfies every
field equation and bound of the spec, stated through its projections. -/
lemma mkSummary_spec (c : Candle) (cs : List Candle) :
    (BitgetApi.mkSummary c cs).startPrice = c.open_
  ∧ (BitgetApi.mkSummary c cs).endPrice
      = ((c :: cs).getLast (List.cons_ne_nil c cs)).close
  ∧ (∀ d ∈ c :: cs, (BitgetApi.mkSummary c cs).lowestPrice ≤ d.low)
  ∧ (∀ d ∈ c :: cs, d.high ≤ (BitgetApi.mkSummary c cs).highestPrice)
  ∧ (BitgetApi.mkSummary c cs).totalVolume
      = ((c :: cs).map Candle.volume).sum
  ∧ (BitgetApi.mkSummary c cs).priceChange
      = (BitgetApi.mkSummary c cs).endPrice - (BitgetApi.mkSummary c cs).startPrice
  ∧ (BitgetApi.mkSummary c cs).priceChangePercent
      = ((BitgetApi.mkSummary c cs).endPrice - (BitgetApi.mkSummary c cs).startPrice)
          / (BitgetApi.mkSummary c cs).startPrice * 100 := by
  refine ⟨rfl, rfl, ?_, ?_, ?_, rfl, rfl⟩
  · intro d hd
    show cs.foldl (fun m x => min m x.low) c.low ≤ d.low
    rcases List.mem_cons.mp hd with rfl | h
    · exact foldl_min_le_init Candle.low cs d.low
    · exact foldl_min_le_of_mem Candle.low cs c.low d h
  · intro d hd
    show d.high ≤ cs.foldl (fun m x => max m x.high) c.high
    rcases List.mem_cons.mp hd with rfl | h
    · exact init_le_foldl_max Candle.high cs d.high
    · exact le_foldl_max_of_mem Candle.high cs c.high d h
  · show (c :: cs).foldl (fun s d => s + d.volume) 0
      = ((c :: cs).map Candle.volume).sum
    rw [foldl_add_map Candle.volume]
    rw [zero_add]

/-- The summary of the `part_001` revision is the `bitgetApi.ts` summary
with `totalDays` replaced by the requested window length. -/
lemma mkSummaryV2_eq (days : Nat) (c : Candle) (cs : List Candle) :
    BitgetApiV2.mkSummary days c cs
      = { BitgetApi.mkSummary c cs with totalDays := days } := rfl

/-- The `part_001` revision's summary satisfies the same field equations
and bounds. -/
lemma mkSummaryV2_spec (days : Nat) (c : Candle) (cs : List Candle) :
    (BitgetApiV2.mkSummary days c cs).startPrice = c.open_
  ∧ (BitgetApiV2.mkSummary days c cs).endPrice
      = ((c :: cs).getLast (List.cons_ne_nil c cs)).close
  ∧ (∀ d ∈ c :: cs, (BitgetApiV2.mkSummary days c cs).lowestPrice ≤ d.low)
  ∧ (∀ d ∈ c :: cs, d.high ≤ (BitgetApiV2.mkSummary days c cs).highestPrice)
  ∧ (BitgetApiV2.mkSummary days c cs).totalVolume
      = ((c :: cs).map Candle.volume).sum
  ∧ (BitgetApiV2.mkSummary days c cs).priceChange
      = (BitgetApiV2.mkSummary days c cs).endPrice
          - (BitgetApiV2.mkSummary days c cs).startPrice
  ∧ (BitgetApiV2.mkSummary days c cs).priceChangePercent
      = ((BitgetApiV2.mkSummary days c cs).endPrice
          - (BitgetApiV2.mkSummary days c cs).startPrice)
          / (BitgetApiV2.mkSummary days c cs).startPrice * 100 := by
  rw [mkSummaryV2_eq]
  exact mkSummary_spec c cs

/-- Inversion for a successful `bitgetApi.ts` `getDataForAI`: the data
is a non-empty series and the summary is built from it. -/
lemma getDataForAI_ok_inv (symbol : String) (days : Nat) (granularity : String)
    (bounded unbounded : List Candle) (r : AIResult)
    (h : (BitgetApi.getDataForAI symbol days granularity bounded unbounded).1
          = .ok r) :
    ∃ c cs, r.data = c :: cs ∧ r.summary = BitgetApi.mkSummary c cs := by
  cases bounded with
  | cons c cs =>
      simp only [BitgetApi.getDataForAI, Except.ok.injEq] at h
      exact ⟨c, cs, by rw [← h], by rw [← h]⟩
  | nil =>
      cases unbounded with
      | nil => simp [BitgetApi.getDataForAI] at h
      | cons c cs =>
          simp only [BitgetApi.getDataForAI, Except.ok.injEq] at h
          exact ⟨c, cs, by rw [← h], by rw [← h]⟩

/-- Inversion for a successful `part_001` `getDataForAI`. -/
lemma getDataForAIV2_ok_inv (symbol : String) (days : Nat) (granularity : String)
    (bounded unbounded : List Candle) (r : AIResult)
    (h : (BitgetApiV2.getDataForAI symbol days granularity bounded unbounded).1
          = .ok r) :
    ∃ c cs, r.data = c :: cs ∧ r.summary = BitgetApiV2.mkSummary days c cs := by
  cases bounded with
  | cons c cs =>
      simp only [BitgetApiV2.getDataForAI, Except.ok.injEq] at h
      exact ⟨c, cs, by rw [← h], by rw [← h]⟩
  | nil =>
      cases unbounded with
      | nil => simp [BitgetApiV2.getDataForAI] at h
      | cons c cs =>
          simp only [BitgetApiV2.getDataForAI, Except.ok.injEq] at h
          exact ⟨c, cs, by rw [← h], by rw [← h]⟩

/-- Inversion for a successful `getDataForAIByMarket`. -/
lemma getDataForAIByMarket_ok_inv (marketType : MarketType) (symbol : String)
    (days : Nat) (granularity : String)
    (bounded unbounded : List Candle) (r : AIResult)
    (h : (BitgetApiV2.getDataForAIByMarket marketType symbol days granularity
            bounded unbounded).1 = .ok r) :
    ∃ c cs, r.data = c :: cs ∧ r.summary = BitgetApiV2.mkSummary days c cs := by
  cases bounded with
  | cons c cs =>
      simp only [BitgetApiV2.getDataForAIByMarket, Except.ok.injEq] at h
      exact ⟨c, cs, by rw [← h], by rw [← h]⟩
  | nil =>
      cases unbounded with
      | nil => simp [BitgetApiV2.getDataForAIByMarket] at h
      | cons c cs =>
          simp only [BitgetApiV2.getDataForAIByMarket, Except.ok.injEq] at h
          exact ⟨c, cs, by rw [← h], by rw [← h]⟩

/-- Claim C1: any summary returned by a successful `getDataForAI` (either
revision) or `getDataForAIByMarket` satisfies `startPrice` = first
candle's open, `endPrice` = last candle's close, `lowestPrice ≤` every
low, `highestPrice ≥` every high, `totalVolume` = sum of volumes,
`priceChange = endPrice - startPrice` and
`priceChangePercent = (endPrice - startPrice) / startPrice * 100`
exactly. -/
theorem claim1_summary_bounds (symbol : String) (days : Nat)
    (granularity : String) (bounded unbounded : List Candle) (r : AIResult)
    (h : (BitgetApi.getDataForAI symbol days granularity bounded unbounded).1
           = .ok r
       ∨ (BitgetApiV2.getDataForAI symbol days granularity bounded unbounded).1
           = .ok r
       ∨ (BitgetApiV2.getDataForAIByMarket .spot symbol days granularity
            bounded unbounded).1 = .ok r
       ∨ (BitgetApiV2.getDataForAIByMarket .futures symbol days granularity
            bounded unbounded).1 = .ok r) :
    ∃ c cs,
      r.data = c :: cs
      ∧ r.summary.startPrice = c.open_
      ∧ r.summary.endPrice = ((c :: cs).getLast (List.cons_ne_nil c cs)).close
      ∧ (∀ d ∈ r.data, r.summary.lowestPrice ≤ d.low)
      ∧ (∀ d ∈ r.data, d.high ≤ r.summary.highestPrice)
      ∧ r.summary.totalVolume = (r.data.map Candle.volume).sum
      ∧ r.summary.priceChange = r.summary.endPrice - r.summary.startPrice
      ∧ r.summary.priceChangePercent
          = (r.summary.endPrice - r.summary.startPrice)
              / r.summary.startPrice * 100 := by
  have key :
      ∀ c cs, r.data = c :: cs →
        (r.summary = BitgetApi.mkSummary c cs
          ∨ r.summary = BitgetApiV2.mkSummary days c cs) →
        ∃ c cs,
          r.data = c :: cs
          ∧ r.summary.startPrice = c.open_
          ∧ r.summary.endPrice = ((c :: cs).getLast (List.cons_ne_nil c cs)).close
          ∧ (∀ d ∈ r.data, r.summary.lowestPrice ≤ d.low)
          ∧ (∀ d ∈ r.data, d.high ≤ r.summary.highestPrice)
          ∧ r.summary.totalVolume = (r.data.map Candle.volume).sum
          ∧ r.summary.priceChange = r.summary.endPrice - r.summary.startPrice
          ∧ r.summary.priceChangePercent
              = (r.summary.endPrice - r.summary.startPrice)
                  / r.summary.startPrice * 100 := by
    intro c cs hd hs
    refine ⟨c, cs, hd, ?_⟩
    rw [hd]
    rcases hs with hs | hs <;> rw [hs]
    · exact mkSummary_spec c cs
    · exact mkSummaryV2_spec days c cs
  rcases h with h | h | h | h
  · obtain ⟨c, cs, hd, hs⟩ :=
      getDataForAI_ok_inv symbol days granularity bounded unbounded r h
    exact key c cs hd (Or.inl hs)
  · obtain ⟨c, cs, hd, hs⟩ :=
      getDataForAIV2_ok_inv symbol days granularity bounded unbounded r h
    exact key c cs hd (Or.inr hs)
  · obtain ⟨c, cs, hd, hs⟩ :=
      getDataForAIByMarket_ok_inv .spot symbol days granularity bounded
        unbounded r h
    exact key c cs hd (Or.inr hs)
  · obtain ⟨c, cs, hd, hs⟩ :=
      getDataForAIByMarket_ok_inv .futures symbol days granularity bounded
        unbounded r h
    exact key c cs hd (Or.inr hs)

/-- Witness for C1 at a one-candle series. -/
theorem claim1_witness :
    ∃ c cs,
      ({ symbol := "BTCUSDT", data := [sampleCandle],
         summary := BitgetApi.mkSummary sampleCandle [] } : AIResult).data
        = c :: cs
      ∧ (BitgetApi.mkSummary sampleCandle []).startPrice = c.open_
      ∧ (BitgetApi.mkSummary sampleCandle []).endPrice
          = ((c :: cs).getLast (List.cons_ne_nil c cs)).close
      ∧ (∀ d ∈ [sampleCandle], (BitgetApi.mkSummary sampleCandle []).lowestPrice ≤ d.low)
      ∧ (∀ d ∈ [sampleCandle], d.high ≤ (BitgetApi.mkSummary sampleCandle []).highestPrice)
      ∧ (BitgetApi.mkSummary sampleCandle []).totalVolume
          = (([sampleCandle] : List Candle).map Candle.volume).sum
      ∧ (BitgetApi.mkSummary sampleCandle []).priceChange
          = (BitgetApi.mkSummary sampleCandle []).endPrice
              - (BitgetApi.mkSummary sampleCandle []).startPrice
      ∧ (BitgetApi.mkSummary sampleCandle []).priceChangePercent
          = ((BitgetApi.mkSummary sampleCandle []).endPrice
              - (BitgetApi.mkSummary sampleCandle []).startPrice)
              / (BitgetApi.mkSummary sampleCandle []).startPrice * 100 :=
  claim1_summary_bounds "BTCUSDT" 30 "1day" [sampleCandle] []
    { symbol := "BTCUSDT", data := [sampleCandle],
      summary := BitgetApi.mkSummary sampleCandle [] }
    (Or.inl rfl)

/-- Claim C4: when the window-bounded request of `getDataForAI` returns
an empty series, exactly one further (unbounded) request is issued
(two requests total); a non-empty fallback series is returned as an
`ok` result, an empty one produces the error naming the symbol; a
non-empty first result issues no fallback, and every `ok` result
carries a non-empty series. -/
theorem claim4_fallback (symbol : String) (days : Nat) (granularity : String)
    (unbounded : List Candle) :
    (BitgetApi.getDataForAI symbol days granularity [] unbounded).2 = 2
  ∧ (∀ c cs, unbounded = c :: cs →
       (BitgetApi.getDataForAI symbol days granularity [] unbounded).1
         = .ok { symbol := symbol, data := c :: cs,
                 summary := BitgetApi.mkSummary c cs })
  ∧ (unbounded = [] →
       (BitgetApi.getDataForAI symbol days granularity [] unbounded).1
         = .error ("No data available for " ++ symbol))
  ∧ (∀ bounded, bounded ≠ [] →
       (BitgetApi.getDataForAI symbol days granularity bounded unbounded).2 = 1)
  ∧ (∀ bounded r,
       (BitgetApi.getDataForAI symbol days granularity bounded unbounded).1
         = .ok r → r.data ≠ []) := by
  refine ⟨?_, ?_, ?_, ?_, ?_⟩
  · cases unbounded <;> rfl
  · intro c cs h
    subst h
    rfl
  · intro h
    subst h
    rfl
  · intro bounded h
    cases bounded with
    | nil => exact absurd rfl h
    | cons c cs => rfl
  · intro bounded r h
    obtain ⟨c, cs, hd, _⟩ :=
      getDataForAI_ok_inv symbol days granularity bounded unbounded r h
    rw [hd]
    exact List.cons_ne_nil c cs

/-- Witness for C4: an empty bounded window with a one-candle fallback
succeeds with the fallback data, and an empty fallback yields the
symbol-naming error. -/
theorem claim4_witness :
    (BitgetApi.getDataForAI "BTCUSDT" 30 "1day" [] [sampleCandle]).1
      = .ok { symbol := "BTCUSDT", data := [sampleCandle],
              summary := BitgetApi.mkSummary sampleCandle [] }
  ∧ (BitgetApi.getDataForAI "BTCUSDT" 30 "1day" [] []).1
      = .error ("No data available for " ++ "BTCUSDT") :=
  ⟨(claim4_fallback "BTCUSDT" 30 "1day" [sampleCandle]).2.1 sampleCandle [] rfl,
   (claim4_fallback "BTCUSDT" 30 "1day" []).2.2.1 rfl⟩

/-- Claim C7: `getHistoricalData` and `getFuturesHistoricalData` parse
every raw row positionally into a `Candle` and return a permutation of
those candles that is sorted ascending by timestamp: any earlier
position carries a timestamp no larger than any later one. -/
theorem claim7_parse_sort (rows : List RawRow) :
    (∀ r, parseCandle r
       = { timestamp := r.ts, open_ := r.o, high := r.h, low := r.l,
           close := r.c, volume := r.v, quoteVolume := r.qv })
  ∧ getHistoricalData rows = getFuturesHistoricalData rows
  ∧ (getHistoricalData rows).Perm (rows.map parseCandle)
  ∧ (∀ (d : Candle) (i j : Nat), i < j →
       ∀ hj : j < (getHistoricalData rows).length,
         ((getHistoricalData rows).getD i d).timestamp
           ≤ ((getHistoricalData rows).getD j d).timestamp) := by
  refine ⟨fun r => rfl, rfl, List.perm_insertionSort candleLE _, ?_⟩
  intro d i j hij hj
  have hi : i < (getHistoricalData rows).length := lt_trans hij hj
  have hs : List.Sorted candleLE (getHistoricalData rows) :=
    List.sorted_insertionSort candleLE (rows.map parseCandle)
  rw [List.getD_eq_getElem (getHistoricalData rows) d hi,
    List.getD_eq_getElem (getHistoricalData rows) d hj]
  exact hs.rel_get_of_lt (show (⟨i, hi⟩ : Fin _) < ⟨j, hj⟩ from hij)

/-- Witness for C7 on two out-of-order rows: after sorting, position 0
holds the earlier timestamp. -/
theorem claim7_witness :
    ((getHistoricalData
        [⟨1700000000000, 10, 12, 9, 11, 5, 50⟩,
         ⟨1600000000000, 8, 10, 7, 9, 4, 40⟩]).getD 0 sampleCandle).timestamp
      ≤ ((getHistoricalData
        [⟨1700000000000, 10, 12, 9, 11, 5, 50⟩,
         ⟨1600000000000, 8, 10, 7, 9, 4, 40⟩]).getD 1 sampleCandle).timestamp :=
  (claim7_parse_sort
      [⟨1700000000000, 10, 12, 9, 11, 5, 50⟩,
       ⟨1600000000000, 8, 10, 7, 9, 4, 40⟩]).2.2.2 sampleCandle 0 1
    (by decide) (by decide)

/-- Claim C8: when both upstream candidates of the spot symbols proxy
fail, the response body is the documented 10-row mock list (all rows
`online`, code `00000`) and the response carries `X-Data-Source: mock`;
when either candidate succeeds the body is built from that payload and
the mock header is absent. -/
theorem claim8_mock_symbols (α : Type) (d : α) (r2 : Option α) :
    (SymbolsRoute.getHandler (none : Option α) none).body
      = .mock "00000" "success (mock data)" SymbolsRoute.mockSymbols
  ∧ ("X-Data-Source", "mock")
      ∈ (SymbolsRoute.getHandler (none : Option α) none).headers
  ∧ SymbolsRoute.mockSymbols.length = 10
  ∧ SymbolsRoute.mockSymbols.map SymbolsRoute.MockSymbol.symbol
      = ["BTCUSDT", "ETHUSDT", "ADAUSDT", "DOTUSDT", "LINKUSDT", "SOLUSDT",
         "MATICUSDT", "AVAXUSDT", "ATOMUSDT", "NEARUSDT"]
  ∧ SymbolsRoute.mockSymbols.map SymbolsRoute.MockSymbol.status
      = ["online", "online", "online", "online", "online", "online", "online",
         "online", "online", "online"]
  ∧ (SymbolsRoute.getHandler (some d) r2).body = .raw d
  ∧ ("X-Data-Source", "mock") ∉ (SymbolsRoute.getHandler (some d) r2).headers
  ∧ (SymbolsRoute.getHandler (none : Option α) (some d)).body
      = .wrapped "00000" "success" d
  ∧ ("X-Data-Source", "mock")
      ∉ (SymbolsRoute.getHandler (none : Option α) (some d)).headers := by
  refine ⟨rfl, ?_, by decide, by decide, by decide, rfl, ?_, rfl, ?_⟩ <;>
    simp [SymbolsRoute.getHandler, SymbolsRoute.corsHeaders]

/-- Witness for C8: with both upstream candidates failed, the mock
header is present on the response. -/
theorem claim8_witness :
    ("X-Data-Source", "mock")
      ∈ (SymbolsRoute.getHandler (none : Option Unit) none).headers :=
  (claim8_mock_symbols Unit () none).2.1

/-- Claim C9: the two client-service revisions disagree only on the
summary's `totalDays`: the `bitgetApi.ts` revision stores the point
count, the `part_001` revision the requested window length; every other
summary field — and the whole request flow — is identical, and
`getDataForAIByMarket` agrees with the `part_001` `getDataForAI`. -/
theorem claim9_totalDays (days : Nat) (c : Candle) (cs : List Candle)
    (symbol granularity : String) (bounded unbounded : List Candle) :
    (BitgetApi.mkSummary c cs).totalDays = (c :: cs).length
  ∧ (BitgetApiV2.mkSummary days c cs).totalDays = days
  ∧ BitgetApiV2.mkSummary days c cs
      = { BitgetApi.mkSummary c cs with totalDays := days }
  ∧ (BitgetApiV2.getDataForAI symbol days granularity bounded unbounded).1
      = (BitgetApi.getDataForAI symbol days granularity bounded unbounded).1.map
          (fun r => { r with summary := { r.summary with totalDays := days } })
  ∧ (BitgetApiV2.getDataForAI symbol days granularity bounded unbounded).2
      = (BitgetApi.getDataForAI symbol days granularity bounded unbounded).2
  ∧ BitgetApiV2.getDataForAIByMarket .spot symbol days granularity
      bounded unbounded
      = BitgetApiV2.getDataForAI symbol days granularity bounded unbounded
  ∧ BitgetApiV2.getDataForAIByMarket .futures symbol days granularity
      bounded unbounded
      = BitgetApiV2.getDataForAI symbol days granularity bounded unbounded := by
  refine ⟨rfl, rfl, rfl, ?_, ?_, ?_, ?_⟩ <;>
    cases bounded <;> cases unbounded <;> rfl

/-- Claim C10: on the spot single-ticker proxy, a present symbol with a
successful upstream fetch whose data has no matching entry yields
HTTP 404 with `Symbol <symbol> not found` — an outcome distinct from
the 400 (missing parameter) and 500 (upstream failure) responses of the
same handler. -/
theorem claim10_ticker_404 (α : Type) (s : String)
    (entries : List (TickerRoute.Entry α))
    (u : Option (List (TickerRoute.Entry α))) :
    ((∀ t ∈ entries, t.symbol ≠ s) →
       TickerRoute.getHandler (some s) (some entries)
         = .err 404 ("Symbol " ++ s ++ " not found"))
  ∧ TickerRoute.getHandler (none : Option String) u
      = .err 400 "Symbol parameter is required"
  ∧ TickerRoute.getHandler (some s)
      (none : Option (List (TickerRoute.Entry α)))
      = .err 500 "Failed to fetch ticker"
  ∧ (404 : Nat) ≠ 400 ∧ (404 : Nat) ≠ 500 := by
  refine ⟨?_, rfl, rfl, by decide, by decide⟩
  intro h
  have hfind : entries.find? (fun t => t.symbol = s) = none :=
    List.find?_eq_none.mpr (fun x hx => by simpa using h x hx)
  simp [TickerRoute.getHandler, hfind]

/-- Witness for C10: requesting `BTCUSDT` against an upstream list
holding only `ETHUSDT` yields the 404 response. -/
theorem claim10_witness :
    TickerRoute.getHandler (some "BTCUSDT")
        (some [({ symbol := "ETHUSDT", payload := () } : TickerRoute.Entry Unit)])
      = .err 404 ("Symbol " ++ "BTCUSDT" ++ " not found") :=
  (claim10_ticker_404 Unit "BTCUSDT"
      [{ symbol := "ETHUSDT", payload := () }] none).1 (by decide)

end CoinAI
